import Mathlib

/-!
Verification development for the multi-tenant ComfyUI management server
(`scripts/tenant_manager.py`).

The Python program is shallowly embedded: the mutable registry
`ProcessManager.processes` becomes an explicit association-list state,
every OS / network interaction (pid liveness, TCP connect, HTTP GET,
`os.killpg`, `subprocess.Popen`, `subprocess.run`) is an oracle field of
an `Env` structure, and each operation returns its result together with
the updated registry and a trace of the externally visible events it
performed (signals sent, processes spawned, records removed/inserted).

Two facts about the concrete platform are recorded as invariants of the
environment rather than left free, because the Python code relies on the
libraries behaving this way:
* `psutil.pid_exists 0` returns `True` on Linux (psutil special-cases
  pid 0), captured by `Env.alive0`;
* a TCP connect to port 0 always fails (port 0 is not addressable),
  captured by `Env.connect0`.
-/

namespace TenantManager

/-- One tenant process record, the value stored under a tenant id in
`ProcessManager.processes`.  Python stores `None`/missing pid as absent;
`info.get('pid', 0)` and `info.get('port')` turn those into falsy values,
so a missing pid/port is modelled as `0`. -/
structure Record where
  pid : Nat
  port : Nat
  username : String
  network_volume : String
  started_at : Nat
  env : List (String × String)
deriving DecidableEq, Repr

/-- The in-memory registry `self.processes`: a tenant-id keyed map,
modelled as an association list (Python dict preserving insertion
order). -/
abbrev Reg := List (String × Record)

/-- Dictionary lookup `self.processes.get(pod_id)` / `pod_id in self.processes`. -/
def Reg.find (st : Reg) (k : String) : Option Record :=
  (st.find? (fun p => p.1 == k)).map (fun p => p.2)

/-- Dictionary deletion `del self.processes[pod_id]`. -/
def Reg.erase (st : Reg) (k : String) : Reg :=
  st.filter (fun p => !(p.1 == k))

/-- Dictionary assignment `self.processes[pod_id] = info` (replaces the
value in place when the key is present, appends otherwise). -/
def Reg.set (st : Reg) (k : String) (r : Record) : Reg :=
  if st.any (fun p => p.1 == k) then
    st.map (fun p => if p.1 == k then (k, r) else p)
  else
    st ++ [(k, r)]

/-- Number of entries stored under key `k`. -/
def Reg.countKey (st : Reg) (k : String) : Nat :=
  (st.filter (fun p => p.1 == k)).length

/-- Well-formedness of a registry: tenant ids are unique (always true of
a Python dict). -/
def Reg.wf (st : Reg) : Prop := (st.map Prod.fst).Nodup

/-- Signals sent by the supervisor. -/
inductive Sig where
  | term
  | kill
deriving DecidableEq, Repr

/-- Outcome of `os.killpg(os.getpgid(pid), sig)`: success, a
`ProcessLookupError` (the process vanished), or any other OS error
(e.g. `PermissionError`), which the Python code does not catch with the
inner `except ProcessLookupError` handler. -/
inductive SigRes where
  | ok
  | gone
  | err
deriving DecidableEq, Repr

/-- Outcome of `subprocess.run(command, timeout=...)`: normal completion
with a return code and captured output, or `subprocess.TimeoutExpired`. -/
inductive RunOutcome where
  | completed (rc : Int) (stdout : String) (stderr : String)
  | timedOut
deriving DecidableEq, Repr

/-- Externally visible events performed by an operation, in order. -/
inductive Event where
  | killpg (pid : Nat) (s : Sig)
  | spawn (pid : Nat)
  | rmRec (id : String)
  | putRec (id : String)
  | childKilled
deriving DecidableEq, Repr

/-- The world outside the supervisor, as observed during one operation:
pid liveness (`psutil.pid_exists`), TCP connects (`socket.connect_ex`
keyed by host, port and timeout), HTTP GETs (`requests.get` keyed by
port and timeout; `none` is any network error or timeout), signal
outcomes, the liveness re-check after the 2 s grace sleep in forced
cleanup, the per-second liveness polls of `stop_tenant` (poll index to
observed liveness), the pid `subprocess.Popen` hands back, the current
time, and `subprocess.run` outcomes keyed by command and timeout. -/
structure Env where
  alive : Nat → Bool
  connectOk : String → Nat → Nat → Bool
  httpGet : Nat → Nat → Option Nat
  sigRes : Nat → Sig → SigRes
  afterGrace : Nat → Bool
  obs : Nat → Nat → Bool
  spawnPid : Nat
  now : Nat
  runResult : String → Nat → RunOutcome
  alive0 : alive 0 = true
  connect0 : ∀ h t, connectOk h 0 t = false

/-- `ProcessManager._is_port_open(host, port, timeout)`: a bounded
`socket.connect_ex`, `True` exactly when the connect succeeds. -/
def isPortOpen (env : Env) (host : String) (port : Nat) (timeout : Nat) : Bool :=
  env.connectOk host port timeout

/-- `ProcessManager._is_comfyui_healthy(port)`: first a TCP connect to
`localhost:port` with a 2 s timeout, then `requests.get` on the service
root with a 5 s timeout; healthy exactly when the GET returns status
200.  Any exception yields `False`. -/
def isComfyuiHealthy (env : Env) (port : Nat) : Bool :=
  if !(isPortOpen env "localhost" port 2) then
    false
  else
    match env.httpGet port 5 with
    | none => false
    | some status => status == 200

/-- `ProcessManager._cleanup_dead_processes`: drop every record whose
pid is truthy and no longer exists on the host. -/
def cleanupDead (env : Env) (st : Reg) : Reg :=
  st.filter (fun p => !((p.2.pid != 0) && !(env.alive p.2.pid)))

/-- `ProcessManager._force_cleanup_tenant(pod_id, info)`: if the
recorded pid is truthy and alive, SIGTERM its process group, sleep 2 s,
and SIGKILL it if it is still alive; then delete the record.  The inner
handler swallows only `ProcessLookupError`; any other signalling error
escapes to the outer `except Exception`, which logs and returns without
removing the record. -/
def forceCleanup (env : Env) (st : Reg) (podId : String) (info : Record) :
    List Event × Reg :=
  let rmTrace : List Event :=
    if (Reg.find st podId).isSome then [Event.rmRec podId] else []
  let removed : Reg := Reg.erase st podId
  if (info.pid != 0) && env.alive info.pid then
    match env.sigRes info.pid Sig.term with
    | SigRes.err => ([Event.killpg info.pid Sig.term], st)
    | SigRes.gone => (Event.killpg info.pid Sig.term :: rmTrace, removed)
    | SigRes.ok =>
      if env.afterGrace info.pid then
        match env.sigRes info.pid Sig.kill with
        | SigRes.err =>
          ([Event.killpg info.pid Sig.term, Event.killpg info.pid Sig.kill], st)
        | _ =>
          (Event.killpg info.pid Sig.term :: Event.killpg info.pid Sig.kill :: rmTrace,
            removed)
      else
        (Event.killpg info.pid Sig.term :: rmTrace, removed)
  else
    (rmTrace, removed)

/-- `env_vars.get('NETWORK_VOLUME', f'/workspace/{pod_id}')`. -/
def networkVolumeOf (envVars : List (String × String)) (podId : String) : String :=
  match envVars.find? (fun p => p.1 == "NETWORK_VOLUME") with
  | some p => p.2
  | none => "/workspace/" ++ podId

/-- The record `start_tenant` stores for a freshly spawned process. -/
def startRecord (env : Env) (username : String) (port : Nat)
    (envVars : List (String × String)) (podId : String) : Record :=
  { pid := env.spawnPid
    port := port
    username := username
    network_volume := networkVolumeOf envVars podId
    started_at := env.now
    env := envVars }

/-- Result dictionaries returned by `start_tenant`. -/
inductive StartResult where
  | alreadyRunning (port : Nat) (pid : Nat)
  | started (port : Nat) (pid : Nat) (networkVolume : String)
deriving DecidableEq, Repr

/-- `ProcessManager.start_tenant(pod_id, username, port, env_vars)`:
if a record exists whose pid exists and whose truthy port probes
healthy, return `already_running` without touching anything; otherwise
force-clean any existing record, spawn the startup script in a fresh
process group, store the new record and return `started`. -/
def startTenant (env : Env) (st : Reg) (podId username : String) (port : Nat)
    (envVars : List (String × String)) : List Event × Reg × StartResult :=
  let spawned := fun (pre : List Event) (st1 : Reg) =>
    let nv := networkVolumeOf envVars podId
    let newRec := startRecord env username port envVars podId
    (pre ++ [Event.spawn env.spawnPid, Event.putRec podId],
      Reg.set st1 podId newRec,
      StartResult.started port env.spawnPid nv)
  match Reg.find st podId with
  | some info =>
    if env.alive info.pid && (info.port != 0) && isComfyuiHealthy env info.port then
      ([], st, StartResult.alreadyRunning info.port info.pid)
    else
      let c := forceCleanup env st podId info
      spawned c.1 c.2
  | none => spawned [] st

/-- Result dictionaries returned by `stop_tenant`. -/
inductive StopResult where
  | notFound
  | notRunning
  | stopped
deriving DecidableEq, Repr

/-- Index of the first poll at which the pid is observed dead, searching
`fuel` polls starting at index `i` (the `for _ in range(30)` loop of
`stop_tenant`). -/
def firstFalseIdx (f : Nat → Bool) : Nat → Nat → Option Nat
  | _, 0 => none
  | i, fuel + 1 => if f i then firstFalseIdx f (i + 1) fuel else some i

/-- Liveness observed by the `if psutil.pid_exists(pid)` check following
the polling loop: the loop consumes one observation per iteration and
breaks at the first dead observation within 30 polls; the post-loop
check consumes the next observation. -/
def stopPollAlive (f : Nat → Bool) : Bool :=
  match firstFalseIdx f 0 30 with
  | some i => f (i + 1)
  | none => f 30

/-- `ProcessManager.stop_tenant(pod_id)`.  No record: `not_found`.
Falsy or dead pid: remove the record, `not_running`.  Otherwise SIGTERM
the process group, poll liveness once per second for up to 30 s, SIGKILL
if still alive, remove the record and return `stopped`.
`ProcessLookupError` from a signal is swallowed; any other signalling
error reaches the outer handler, which re-raises (modelled as
`Except.error ()`), leaving the record in place. -/
def stopTenant (env : Env) (st : Reg) (tid : String) :
    List Event × Reg × Except Unit StopResult :=
  match Reg.find st tid with
  | none => ([], st, Except.ok StopResult.notFound)
  | some r =>
    if (r.pid == 0) || !(env.alive r.pid) then
      ([], Reg.erase st tid, Except.ok StopResult.notRunning)
    else
      match env.sigRes r.pid Sig.term with
      | SigRes.err => ([Event.killpg r.pid Sig.term], st, Except.error ())
      | SigRes.gone =>
        ([Event.killpg r.pid Sig.term], Reg.erase st tid, Except.ok StopResult.stopped)
      | SigRes.ok =>
        if stopPollAlive (env.obs r.pid) then
          match env.sigRes r.pid Sig.kill with
          | SigRes.err =>
            ([Event.killpg r.pid Sig.term, Event.killpg r.pid Sig.kill], st,
              Except.error ())
          | _ =>
            ([Event.killpg r.pid Sig.term, Event.killpg r.pid Sig.kill],
              Reg.erase st tid, Except.ok StopResult.stopped)
        else
          ([Event.killpg r.pid Sig.term], Reg.erase st tid,
            Except.ok StopResult.stopped)

/-- Status classification in `get_tenant_info`. -/
inductive Status where
  | healthy
  | unhealthy
  | dead
deriving DecidableEq, Repr

/-- One element of the list returned by `get_tenant_info`. -/
structure TenantInfo where
  pod_id : String
  username : String
  port : Nat
  pid : Nat
  uptime : Int
  network_volume : String
  status : Status
  process_alive : Bool
  service_healthy : Bool
deriving DecidableEq, Repr

/-- Classification of one surviving record in `get_tenant_info`:
`is_service_healthy = (port and _is_comfyui_healthy(port)) if
is_process_alive else False`. -/
def classify (env : Env) (tid : String) (r : Record) : TenantInfo :=
  let isAlive := env.alive r.pid
  let isHealthy :=
    if isAlive then (r.port != 0) && isComfyuiHealthy env r.port else false
  { pod_id := tid
    username := r.username
    port := r.port
    pid := r.pid
    uptime := (env.now : Int) - (r.started_at : Int)
    network_volume := r.network_volume
    status :=
      if isAlive && isHealthy then Status.healthy
      else if isAlive && !isHealthy then Status.unhealthy
      else Status.dead
    process_alive := isAlive
    service_healthy := isHealthy }

/-- `ProcessManager.get_tenant_info()`: first sweep dead records
(`_cleanup_dead_processes`), then classify each remaining record. -/
def getTenantInfo (env : Env) (st : Reg) : Reg × List TenantInfo :=
  let st1 := cleanupDead env st
  (st1, st1.map (fun p => classify env p.1 p.2))

/-! ## Persistence: the JSON registry file

`save_processes` serialises `self.processes` with `json.dump`;
`load_processes` reads it back with `json.load` and sweeps dead pids.
The JSON structure layer is modelled with a small JSON value type; the
textual rendering performed by `json.dump`/`json.load` is the identity
on this structure. -/

/-- JSON values (the subset the registry file uses). -/
inductive Json where
  | jstr (s : String)
  | jnum (n : Nat)
  | jobj (fields : List (String × Json))

/-- Lookup of a key in a JSON object field list (first match, as a
Python dict produced by `json.load` has unique keys). -/
def Json.lookupField : List (String × Json) → String → Option Json
  | [], _ => none
  | (k, v) :: rest, key => if k = key then some v else Json.lookupField rest key

/-- `obj[key]` on a JSON object. -/
def Json.getField : Json → String → Option Json
  | Json.jobj fs, key => Json.lookupField fs key
  | _, _ => none

def Json.asNat : Json → Option Nat
  | Json.jnum n => some n
  | _ => none

def Json.asStr : Json → Option String
  | Json.jstr s => some s
  | _ => none

/-- Serialisation of the `env` dictionary of a record. -/
def strPairsToJson (l : List (String × String)) : List (String × Json) :=
  l.map (fun p => (p.1, Json.jstr p.2))

/-- Deserialisation of the `env` dictionary of a record. -/
def strPairsFromJson : List (String × Json) → Option (List (String × String))
  | [] => some []
  | (k, Json.jstr v) :: rest =>
    (strPairsFromJson rest).map (fun tl => (k, v) :: tl)
  | _ => none

/-- JSON serialisation of one record, with the field layout
`start_tenant` writes. -/
def Record.toJson (r : Record) : Json :=
  Json.jobj
    [("pid", Json.jnum r.pid),
     ("port", Json.jnum r.port),
     ("username", Json.jstr r.username),
     ("network_volume", Json.jstr r.network_volume),
     ("started_at", Json.jnum r.started_at),
     ("env", Json.jobj (strPairsToJson r.env))]

/-- JSON deserialisation of one record. -/
def Record.fromJson? (j : Json) : Option Record := do
  let pid ← (j.getField "pid").bind Json.asNat
  let port ← (j.getField "port").bind Json.asNat
  let username ← (j.getField "username").bind Json.asStr
  let nv ← (j.getField "network_volume").bind Json.asStr
  let sa ← (j.getField "started_at").bind Json.asNat
  let envJ ← j.getField "env"
  match envJ with
  | Json.jobj fs =>
    (strPairsFromJson fs).map (fun e =>
      { pid := pid, port := port, username := username,
        network_volume := nv, started_at := sa, env := e })
  | _ => none

/-- Serialisation of the whole registry (`json.dump(self.processes, f)`). -/
def regToJson (st : Reg) : Json :=
  Json.jobj (st.map (fun p => (p.1, Record.toJson p.2)))

/-- Deserialisation of a registry object field list. -/
def regPairsFromJson : List (String × Json) → Option Reg
  | [] => some []
  | (k, v) :: rest =>
    match Record.fromJson? v, regPairsFromJson rest with
    | some r, some tl => some ((k, r) :: tl)
    | _, _ => none

/-- Deserialisation of the whole registry (`json.load(f)`). -/
def regFromJson? : Json → Option Reg
  | Json.jobj fs => regPairsFromJson fs
  | _ => none

/-- `ProcessManager.save_processes`: the value written to
`/tmp/comfyui_processes.json`. -/
def saveProcesses (st : Reg) : Option Json :=
  some (regToJson st)

/-- `ProcessManager.load_processes`: missing file keeps the initial
empty registry; a parse failure hits the `except` clause, which resets
`self.processes = {}`; a parsed registry is swept by
`_cleanup_dead_processes`. -/
def loadProcesses (env : Env) (file : Option Json) : Reg :=
  match file with
  | none => []
  | some j =>
    match regFromJson? j with
    | none => []
    | some st => cleanupDead env st

/-! ## The on-disk write sequence of `save_processes`

`save_processes` opens the registry file with mode `'w'` (which
truncates it) and then `json.dump`s into it.  To reason about crash
points the write path is modelled as a sequence of file-system
operations applied to a store of named files. -/

/-- Contents of one file: truncated-empty (just opened with `'w'`, or a
crash before the write finished) or a completely written JSON value. -/
inductive FileData where
  | empty
  | full (j : Json)

/-- A file store. -/
abbrev FS := List (String × FileData)

def FS.read : FS → String → Option FileData
  | [], _ => none
  | (k, v) :: rest, p => if k = p then some v else FS.read rest p

def FS.eraseFile (fs : FS) (p : String) : FS :=
  fs.filter (fun q => !(q.1 == p))

def FS.writeEntry (fs : FS) (p : String) (d : FileData) : FS :=
  (p, d) :: FS.eraseFile fs p

/-- File-system operations. -/
inductive FsOp where
  | truncate (path : String)
  | writeAll (path : String) (data : Json)
  | rename (src : String) (dst : String)

def applyOp (fs : FS) : FsOp → FS
  | FsOp.truncate p => FS.writeEntry fs p FileData.empty
  | FsOp.writeAll p j => FS.writeEntry fs p (FileData.full j)
  | FsOp.rename s d =>
    match FS.read fs s with
    | none => fs
    | some c => FS.writeEntry (FS.eraseFile fs s) d c

def applyOps (fs : FS) (ops : List FsOp) : FS :=
  ops.foldl applyOp fs

/-- `self.processes_file`. -/
def processesFilePath : String := "/tmp/comfyui_processes.json"

/-- The operation sequence `save_processes` performs:
`open(self.processes_file, 'w')` truncates the registry file in place,
then `json.dump` writes the serialised registry into it.  There is no
temporary file and no rename. -/
def saveOpsCode (j : Json) : List FsOp :=
  [FsOp.truncate processesFilePath, FsOp.writeAll processesFilePath j]

/-- Modelled from the spec: the write-to-temp-then-rename sequence the
specification describes for `save()` (`src` has no such code; this
definition exists only to be compared with `saveOpsCode`). -/
def saveOpsAtomicSpec (j : Json) : List FsOp :=
  [FsOp.truncate (processesFilePath ++ ".tmp"),
   FsOp.writeAll (processesFilePath ++ ".tmp") j,
   FsOp.rename (processesFilePath ++ ".tmp") processesFilePath]

/-! ## Control surface (HTTP boundary) -/

/-- Decoded body of a `POST /start` request. -/
structure StartReq where
  POD_ID : Option String
  POD_USERNAME : Option String
  PORT : Option Nat
  envVars : List (String × String)
deriving DecidableEq, Repr

/-- Response of `handle_start_request`. -/
inductive StartResp where
  | clientErr (code : Nat) (msg : String)
  | okJson (r : StartResult)
deriving DecidableEq, Repr

/-- `MetricsHandler.handle_start_request`: `data.get` the three required
fields, reject with `send_error(400, ...)` unless
`all([pod_id, username, port])` (so `None`, the empty string and port 0
are all rejected), otherwise dispatch to `start_tenant`. -/
def handleStartRequest (env : Env) (st : Reg) (req : StartReq) :
    StartResp × Reg × List Event :=
  match req.POD_ID, req.POD_USERNAME, req.PORT with
  | some tid, some u, some p =>
    if (tid != "") && (u != "") && (p != 0) then
      let out := startTenant env st tid u p req.envVars
      (StartResp.okJson out.2.2, out.2.1, out.1)
    else
      (StartResp.clientErr 400 "POD_ID, POD_USERNAME, and PORT required", st, [])
  | _, _, _ =>
    (StartResp.clientErr 400 "POD_ID, POD_USERNAME, and PORT required", st, [])

/-- JSON body of a successful `/execute` response. -/
structure ExecBody where
  returncode : Int
  stdout : String
  stderr : String
  success : Bool
deriving DecidableEq, Repr

/-- Response of `handle_execute_request`. -/
inductive ExecResp where
  | httpErr (code : Nat) (msg : String)
  | okJson (status : Nat) (body : ExecBody)
deriving DecidableEq, Repr

/-- `MetricsHandler.handle_execute_request`: reject a missing or falsy
command with 400; otherwise `subprocess.run(command, shell=True,
timeout=300)`.  On completion answer HTTP 200 (return code 0) or 500
with the `{returncode, stdout, stderr, success}` body.  On
`subprocess.TimeoutExpired` answer `send_error(408, "Command timeout")`;
`subprocess.run` kills and waits for the child when the timeout expires
(Python library contract), recorded as the `childKilled` event. -/
def handleExecuteRequest (env : Env) (cmd : Option String) :
    ExecResp × List Event :=
  match cmd with
  | none => (ExecResp.httpErr 400 "command required", [])
  | some c =>
    if c = "" then
      (ExecResp.httpErr 400 "command required", [])
    else
      match env.runResult c 300 with
      | RunOutcome.completed rc o e =>
        (ExecResp.okJson (if rc = 0 then 200 else 500)
          { returncode := rc, stdout := o, stderr := e, success := rc == 0 }, [])
      | RunOutcome.timedOut =>
        (ExecResp.httpErr 408 "Command timeout", [Event.childKilled])

/-! ## Registry and environment lemmas -/

/-- A TCP connect to port 0 never succeeds, so no port-0 service can
probe healthy. -/
theorem isComfyuiHealthy_zero (env : Env) : isComfyuiHealthy env 0 = false := by
  unfold isComfyuiHealthy isPortOpen
  rw [env.connect0]
  rfl

theorem Reg.find_map_overwrite (tl : Reg) (k : String) (r : Record)
    (h : tl.any (fun p => p.1 == k) = true) :
    Reg.find (tl.map (fun p => if p.1 == k then (k, r) else p)) k = some r := by
  induction tl with
  | nil => simp at h
  | cons hd tl ih =>
    by_cases hhd : hd.1 = k
    · simp [Reg.find, List.find?, hhd]
    · have h' : tl.any (fun p => p.1 == k) = true := by
        simp only [List.any_cons, Bool.or_eq_true, beq_iff_eq] at h
        rcases h with h | h
        · exact absurd h hhd
        · simpa using h
      have := ih h'
      simp only [Reg.find, List.map_cons] at this ⊢
      rw [List.find?_cons_of_neg]
      · exact this
      · simp [hhd]

/-- After a dict assignment, lookup of the assigned key yields the
assigned record. -/
theorem Reg.find_set_self (st : Reg) (k : String) (r : Record) :
    Reg.find (Reg.set st k r) k = some r := by
  unfold Reg.set
  by_cases h : st.any (fun p => p.1 == k) = true
  · rw [if_pos h]
    exact Reg.find_map_overwrite st k r h
  · rw [if_neg h]
    rw [Bool.not_eq_true, List.any_eq_false] at h
    induction st with
    | nil => simp [Reg.find, List.find?]
    | cons hd tl ih =>
      have hb : (hd.1 == k) = false := by
        have := h hd (List.mem_cons_self hd tl)
        simpa using this
      simp only [List.cons_append, Reg.find, List.find?_cons, hb, cond_false]
      exact ih (fun p hp => h p (List.mem_cons_of_mem hd hp))

/-- After a dict deletion, lookup of the deleted key fails. -/
theorem Reg.find_erase_self (st : Reg) (k : String) :
    Reg.find (Reg.erase st k) k = none := by
  unfold Reg.find Reg.erase
  rw [Option.map_eq_none', List.find?_eq_none]
  intro p hp
  rw [List.mem_filter] at hp
  simpa using hp.2

theorem Reg.countKey_erase (st : Reg) (k : String) :
    Reg.countKey (Reg.erase st k) k = 0 := by
  unfold Reg.countKey Reg.erase
  rw [List.length_eq_zero, List.filter_filter, List.filter_eq_nil_iff]
  intro p _
  simp [Bool.and_comm]

/-- Deleting a key and then assigning it leaves exactly one entry for
that key. -/
theorem Reg.countKey_set_erase (st : Reg) (k : String) (r : Record) :
    Reg.countKey (Reg.set (Reg.erase st k) k r) k = 1 := by
  have hany : (Reg.erase st k).any (fun p => p.1 == k) = false := by
    rw [List.any_eq_false]
    intro p hp
    rw [Reg.erase, List.mem_filter] at hp
    simpa using hp.2
  unfold Reg.set
  rw [if_neg (by simp [hany])]
  unfold Reg.countKey
  rw [List.filter_append]
  have : Reg.countKey (Reg.erase st k) k = 0 := Reg.countKey_erase st k
  unfold Reg.countKey at this
  simp [this]

/-- In a well-formed registry a key determines its record. -/
theorem Reg.wf_eq_of_mem {st : Reg} {k : String} {a b : Record}
    (hwf : Reg.wf st) (h1 : (k, a) ∈ st) (h2 : (k, b) ∈ st) : a = b := by
  induction st with
  | nil => cases h1
  | cons hd tl ih =>
    rw [Reg.wf, List.map_cons, List.nodup_cons] at hwf
    rcases List.mem_cons.mp h1 with h1 | h1 <;> rcases List.mem_cons.mp h2 with h2 | h2
    · rw [← h1] at h2
      exact congrArg Prod.snd h2.symm
    · exfalso
      apply hwf.1
      rw [← h1]
      simpa using List.mem_map_of_mem Prod.fst h2
    · exfalso
      apply hwf.1
      rw [← h2]
      simpa using List.mem_map_of_mem Prod.fst h1
    · exact ih hwf.2 h1 h2

/-- Under the psutil semantics recorded in `Env.alive0`, the dead-pid
sweep keeps exactly the records whose pid exists on the host. -/
theorem cleanupDead_eq_filter (env : Env) (st : Reg) :
    cleanupDead env st = st.filter (fun p => env.alive p.2.pid) := by
  unfold cleanupDead
  apply List.filter_congr
  intro p _
  cases hp : p.2.pid with
  | zero => simp [env.alive0]
  | succ n => cases ha : env.alive (n + 1) <;> simp [ha]

/-! ## JSON round-trip lemmas -/

theorem strPairs_roundtrip (l : List (String × String)) :
    strPairsFromJson (strPairsToJson l) = some l := by
  induction l with
  | nil => rfl
  | cons hd tl ih =>
    obtain ⟨k, v⟩ := hd
    show (strPairsFromJson (strPairsToJson tl)).map (fun tl2 => (k, v) :: tl2) = _
    rw [ih]
    rfl

theorem record_roundtrip (r : Record) :
    Record.fromJson? (Record.toJson r) = some r := by
  show (strPairsFromJson (strPairsToJson r.env)).map _ = some r
  rw [strPairs_roundtrip]
  rfl

theorem reg_roundtrip (st : Reg) : regFromJson? (regToJson st) = some st := by
  induction st with
  | nil => rfl
  | cons hd tl ih =>
    obtain ⟨k, r⟩ := hd
    show (match Record.fromJson? (Record.toJson r),
            regPairsFromJson (tl.map (fun p => (p.1, Record.toJson p.2))) with
          | some a, some l => some ((k, a) :: l)
          | _, _ => none) = _
    rw [record_roundtrip]
    have h2 : regPairsFromJson (tl.map (fun p => (p.1, Record.toJson p.2))) =
        regFromJson? (regToJson tl) := rfl
    rw [h2, ih]

/-! ## Claim theorems -/

/-- The already-running early return of `start_tenant`: an existing
record with an existing pid and a healthy port short-circuits. -/
theorem startTenant_already (env : Env) (st : Reg) (tid u : String) (p : Nat)
    (ev : List (String × String)) (info : Record)
    (hf : Reg.find st tid = some info)
    (ha : env.alive info.pid = true)
    (hh : isComfyuiHealthy env info.port = true) :
    startTenant env st tid u p ev =
      ([], st, StartResult.alreadyRunning info.port info.pid) := by
  have hp : (info.port != 0) = true := by
    rw [bne_iff_ne]
    intro h0
    rw [h0, isComfyuiHealthy_zero] at hh
    cases hh
  unfold startTenant
  rw [hf]
  simp [ha, hp, hh]

/-- C1: for a tenant with an existing record whose pid exists on the
host and whose recorded port probes healthy, `start_tenant` returns
`already_running` with the existing port and pid, performs no external
event (in particular spawns nothing) and leaves the registry unchanged;
consequently, after a first start of an absent tenant whose spawned
process comes up alive and healthy, a second start returns
`already_running` while only the first spawned a process. -/
theorem C1_start_idempotent (env : Env) (st : Reg) (tid u : String) (p : Nat)
    (ev : List (String × String)) (info : Record)
    (hf : Reg.find st tid = some info)
    (ha : env.alive info.pid = true)
    (hh : isComfyuiHealthy env info.port = true) :
    startTenant env st tid u p ev =
      ([], st, StartResult.alreadyRunning info.port info.pid) ∧
    (∀ (env1 env2 : Env) (st0 : Reg),
      Reg.find st0 tid = none →
      env2.alive env1.spawnPid = true →
      isComfyuiHealthy env2 p = true →
      startTenant env1 st0 tid u p ev =
        ([Event.spawn env1.spawnPid, Event.putRec tid],
          Reg.set st0 tid (startRecord env1 u p ev tid),
          StartResult.started p env1.spawnPid (networkVolumeOf ev tid)) ∧
      startTenant env2 (Reg.set st0 tid (startRecord env1 u p ev tid)) tid u p ev =
        ([], Reg.set st0 tid (startRecord env1 u p ev tid),
          StartResult.alreadyRunning p env1.spawnPid)) := by
  refine ⟨startTenant_already env st tid u p ev info hf ha hh, ?_⟩
  intro env1 env2 st0 h0 ha2 hh2
  constructor
  · unfold startTenant
    rw [h0]
    rfl
  · exact startTenant_already env2 (Reg.set st0 tid (startRecord env1 u p ev tid))
      tid u p ev (startRecord env1 u p ev tid)
      (Reg.find_set_self st0 tid (startRecord env1 u p ev tid)) ha2 hh2

/-- World for the C1 witness: every pid exists, the service on port
8188 answers 200, spawns hand back pid 42. -/
def envC1 : Env :=
  { alive := fun _ => true
    connectOk := fun _ p _ => p == 8188
    httpGet := fun p _ => if p == 8188 then some 200 else none
    sigRes := fun _ _ => SigRes.ok
    afterGrace := fun _ => false
    obs := fun _ _ => false
    spawnPid := 42
    now := 0
    runResult := fun _ _ => RunOutcome.completed 0 "" ""
    alive0 := rfl
    connect0 := fun _ _ => rfl }

def recC1 : Record :=
  { pid := 7, port := 8188, username := "alice",
    network_volume := "/workspace/tenantA", started_at := 0, env := [] }

def stC1 : Reg := [("tenantA", recC1)]

def recC1b : Record :=
  { pid := 42, port := 8188, username := "alice",
    network_volume := "/workspace/tenantA", started_at := 0, env := [] }

theorem C1_witness :
    startTenant envC1 stC1 "tenantA" "alice" 8188 [] =
      ([], stC1, StartResult.alreadyRunning 8188 7) ∧
    startTenant envC1 [] "tenantA" "alice" 8188 [] =
      ([Event.spawn 42, Event.putRec "tenantA"], [("tenantA", recC1b)],
        StartResult.started 8188 42 "/workspace/tenantA") ∧
    startTenant envC1 [("tenantA", recC1b)] "tenantA" "alice" 8188 [] =
      ([], [("tenantA", recC1b)], StartResult.alreadyRunning 8188 42) := by
  refine ⟨?_, ?_, ?_⟩
  · exact (C1_start_idempotent envC1 stC1 "tenantA" "alice" 8188 [] recC1 rfl rfl rfl).1
  · exact ((C1_start_idempotent envC1 stC1 "tenantA" "alice" 8188 [] recC1 rfl rfl rfl).2
      envC1 envC1 [] rfl rfl rfl).1
  · exact ((C1_start_idempotent envC1 stC1 "tenantA" "alice" 8188 [] recC1 rfl rfl rfl).2
      envC1 envC1 [] rfl rfl rfl).2

/-- C5 (amended): the probe answers healthy exactly when the 2 s TCP
connect to localhost succeeds and the 5 s root GET returns status
exactly 200; a failed connect, any GET error/timeout and every non-200
status (success-class or not) all collapse to the single unhealthy
answer `false`. -/
theorem C5_probe_amended (env : Env) (port : Nat) :
    isComfyuiHealthy env port = true ↔
      env.connectOk "localhost" port 2 = true ∧ env.httpGet port 5 = some 200 := by
  unfold isComfyuiHealthy isPortOpen
  cases hc : env.connectOk "localhost" port 2
  · simp
  · cases hg : env.httpGet port 5 with
    | none => simp
    | some s => simp

/-- World for the C5 counterexample: the connect succeeds and the root
GET answers 204 No Content. -/
def envC5 : Env :=
  { alive := fun _ => true
    connectOk := fun _ p _ => p == 8188
    httpGet := fun p _ => if p == 8188 then some 204 else none
    sigRes := fun _ _ => SigRes.ok
    afterGrace := fun _ => false
    obs := fun _ _ => false
    spawnPid := 1
    now := 0
    runResult := fun _ _ => RunOutcome.completed 0 "" ""
    alive0 := rfl
    connect0 := fun _ _ => rfl }

/-- C5 counterexample: the TCP connect succeeds and the application
answers 204 — a success-class status — yet `_is_comfyui_healthy`
reports unhealthy, because the code tests `status_code == 200`
exactly. -/
theorem C5_counterexample :
    isPortOpen envC5 "localhost" 8188 2 = true ∧
    envC5.httpGet 8188 5 = some 204 ∧
    (200 ≤ 204 ∧ 204 < 300) ∧
    isComfyuiHealthy envC5 8188 = false :=
  ⟨rfl, rfl, by decide, rfl⟩

def sampleRecC3 : Record :=
  { pid := 5, port := 8000, username := "u",
    network_volume := "/workspace/u", started_at := 3, env := [("A", "B")] }

def oldRegJson : Json := regToJson [("t", sampleRecC3)]

def newRegJson : Json := regToJson []

def fsC3 : FS := [(processesFilePath, FileData.full oldRegJson)]

/-- C3 counterexample: one crash point falsifies atomicity — crashing
`save_processes` after the truncating `open(..., 'w')` and before
`json.dump` completes leaves the registry file empty, which is neither
the previously durable record set nor the new one. -/
theorem C3_counterexample :
    FS.read (applyOps fsC3 (List.take 1 (saveOpsCode newRegJson)))
        processesFilePath = some FileData.empty ∧
    FS.read (applyOps fsC3 (List.take 1 (saveOpsCode newRegJson)))
        processesFilePath ≠ some (FileData.full oldRegJson) ∧
    FS.read (applyOps fsC3 (List.take 1 (saveOpsCode newRegJson)))
        processesFilePath ≠ some (FileData.full newRegJson) := by
  refine ⟨rfl, fun h => ?_, fun h => ?_⟩ <;>
    exact FileData.noConfusion (Option.some.inj h)

/-- C3 (amended): `save_processes` writes the record set in place —
truncate the registry file, then write the serialised registry — with
no temporary file and no rename; a save that runs to completion leaves
the file holding exactly the new serialised record set. -/
theorem C3_save_amended (fs : FS) (st : Reg) :
    FS.read (applyOps fs (saveOpsCode (regToJson st))) processesFilePath =
      some (FileData.full (regToJson st)) := by
  show FS.read (FS.writeEntry (FS.writeEntry fs processesFilePath FileData.empty)
      processesFilePath (FileData.full (regToJson st))) processesFilePath = _
  unfold FS.writeEntry FS.read
  rw [if_pos rfl]

/-- C8: a registry saved to the file and loaded back is field-for-field
identical to the saved one, except that records whose pid no longer
exists on the host are pruned during load. -/
theorem C8_save_load_roundtrip (env : Env) (st : Reg) :
    loadProcesses env (saveProcesses st) = st.filter (fun p => env.alive p.2.pid) := by
  show (match regFromJson? (regToJson st) with
        | none => []
        | some st2 => cleanupDead env st2) = _
  rw [reg_roundtrip]
  exact cleanupDead_eq_filter env st

/-- C2 (amended): stop with no record returns `not_found` and leaves
the registry unchanged; a record whose stored pid is falsy (0/missing)
or absent from the host is removed and `not_running` returned; a record
with a nonzero live pid — provided no signalling step fails with an
error other than `ProcessLookupError` — gets SIGTERM to its process
group, then SIGKILL exactly when the once-per-second 30-poll liveness
loop still observes it alive, its record is removed, and `stopped` is
returned, leaving no record for the tenant. -/
theorem C2_stop_semantics (env : Env) (st : Reg) (tid : String) :
    (Reg.find st tid = none →
      stopTenant env st tid = ([], st, Except.ok StopResult.notFound)) ∧
    (∀ r : Record, Reg.find st tid = some r →
      (r.pid = 0 ∨ env.alive r.pid = false) →
      stopTenant env st tid =
        ([], Reg.erase st tid, Except.ok StopResult.notRunning)) ∧
    (∀ r : Record, Reg.find st tid = some r →
      r.pid ≠ 0 → env.alive r.pid = true →
      env.sigRes r.pid Sig.term ≠ SigRes.err →
      env.sigRes r.pid Sig.kill ≠ SigRes.err →
      stopTenant env st tid =
        ((if env.sigRes r.pid Sig.term = SigRes.gone then
            [Event.killpg r.pid Sig.term]
          else if stopPollAlive (env.obs r.pid) then
            [Event.killpg r.pid Sig.term, Event.killpg r.pid Sig.kill]
          else [Event.killpg r.pid Sig.term]),
          Reg.erase st tid, Except.ok StopResult.stopped) ∧
      Reg.find (Reg.erase st tid) tid = none) := by
  refine ⟨?_, ?_, ?_⟩
  · intro h
    unfold stopTenant
    rw [h]
  · intro r hf hdead
    unfold stopTenant
    rw [hf]
    have hcond : ((r.pid == 0) || !(env.alive r.pid)) = true := by
      rcases hdead with h | h
      · simp [h]
      · simp [h]
    simp [hcond]
  · intro r hf hp ha ht hk
    unfold stopTenant
    rw [hf]
    have hcond : ((r.pid == 0) || !(env.alive r.pid)) = false := by
      simp [hp, ha]
    cases hterm : env.sigRes r.pid Sig.term with
    | err => exact absurd hterm ht
    | gone => simp [hcond, hterm, Reg.find_erase_self]
    | ok =>
      cases hpoll : stopPollAlive (env.obs r.pid)
      · simp [hcond, hterm, hpoll, Reg.find_erase_self]
      · cases hkill : env.sigRes r.pid Sig.kill with
        | err => exact absurd hkill hk
        | gone => simp [hcond, hterm, hpoll, hkill, Reg.find_erase_self]
        | ok => simp [hcond, hterm, hpoll, hkill, Reg.find_erase_self]

/-- World for the C2 instances: pids 0 and 5 exist, signalling
succeeds, the stopped process dies before the first poll. -/
def envC2 : Env :=
  { alive := fun n => n == 0 || n == 5
    connectOk := fun _ _ _ => false
    httpGet := fun _ _ => none
    sigRes := fun _ _ => SigRes.ok
    afterGrace := fun _ => false
    obs := fun _ _ => false
    spawnPid := 9
    now := 0
    runResult := fun _ _ => RunOutcome.completed 0 "" ""
    alive0 := rfl
    connect0 := fun _ _ => rfl }

def recC2zero : Record :=
  { pid := 0, port := 8100, username := "z",
    network_volume := "/workspace/z", started_at := 0, env := [] }

def stC2zero : Reg := [("z", recC2zero)]

/-- C2 counterexample: a record stores pid 0 (a missing pid defaults to
a falsy value); `psutil.pid_exists(0)` is `True`, so the record's pid is
alive on the host, yet `stop_tenant` takes the falsy-pid branch and
returns `not_running` without signalling anything — the claim's
live-pid clause demands SIGTERM and `stopped`. -/
theorem C2_counterexample :
    Reg.find stC2zero "z" = some recC2zero ∧
    envC2.alive recC2zero.pid = true ∧
    stopTenant envC2 stC2zero "z" = ([], [], Except.ok StopResult.notRunning) ∧
    (Except.ok StopResult.notRunning : Except Unit StopResult) ≠
      Except.ok StopResult.stopped :=
  ⟨rfl, rfl, rfl, fun h => StopResult.noConfusion (Except.ok.inj h)⟩

def recC2dead : Record :=
  { pid := 9, port := 8100, username := "d",
    network_volume := "/workspace/d", started_at := 0, env := [] }

def recC2live : Record :=
  { pid := 5, port := 8100, username := "l",
    network_volume := "/workspace/l", started_at := 0, env := [] }

theorem C2_witness :
    stopTenant envC2 [] "x" = ([], [], Except.ok StopResult.notFound) ∧
    stopTenant envC2 [("d", recC2dead)] "d" =
      ([], [], Except.ok StopResult.notRunning) ∧
    stopTenant envC2 [("l", recC2live)] "l" =
      ([Event.killpg 5 Sig.term], [], Except.ok StopResult.stopped) := by
  refine ⟨?_, ?_, ?_⟩
  · exact (C2_stop_semantics envC2 [] "x").1 rfl
  · exact (C2_stop_semantics envC2 [("d", recC2dead)] "d").2.1 recC2dead rfl
      (Or.inr rfl)
  · exact ((C2_stop_semantics envC2 [("l", recC2live)] "l").2.2 recC2live rfl
      (by decide) rfl (by decide) (by decide)).1

theorem firstFalseIdx_eq_none (f : Nat → Bool) (h : ∀ j, f j = true) :
    ∀ fuel i, firstFalseIdx f i fuel = none := by
  intro fuel
  induction fuel with
  | zero => intro i; rfl
  | succ n ih =>
    intro i
    unfold firstFalseIdx
    rw [h i]
    simpa using ih (i + 1)

/-- A pid observed alive at every poll is still observed alive by the
post-loop check. -/
theorem stopPollAlive_of_all_true (f : Nat → Bool) (h : ∀ j, f j = true) :
    stopPollAlive f = true := by
  unfold stopPollAlive
  rw [firstFalseIdx_eq_none f h]
  exact h 30

/-- C7 (amended): once stop has begun signalling a record with a
nonzero live pid, the record is removed and `stopped` returned whenever
signalling raises at most `ProcessLookupError` — including when SIGTERM
finds the process already gone, and when the pid is observed alive at
every poll and even after SIGKILL (kill result unconfirmed); but a
signalling failure other than `ProcessLookupError` (e.g.
`PermissionError`) propagates out of `stop_tenant` and leaves the
record in place. -/
theorem C7_stop_removal (env : Env) (st : Reg) (tid : String) (r : Record)
    (hf : Reg.find st tid = some r)
    (hp : r.pid ≠ 0)
    (ha : env.alive r.pid = true) :
    (env.sigRes r.pid Sig.term = SigRes.gone →
      stopTenant env st tid =
        ([Event.killpg r.pid Sig.term], Reg.erase st tid,
          Except.ok StopResult.stopped) ∧
      Reg.find (Reg.erase st tid) tid = none) ∧
    (env.sigRes r.pid Sig.term = SigRes.ok →
      env.sigRes r.pid Sig.kill ≠ SigRes.err →
      (∀ i, env.obs r.pid i = true) →
      stopTenant env st tid =
        ([Event.killpg r.pid Sig.term, Event.killpg r.pid Sig.kill],
          Reg.erase st tid, Except.ok StopResult.stopped) ∧
      Reg.find (Reg.erase st tid) tid = none) := by
  have hcond : ((r.pid == 0) || !(env.alive r.pid)) = false := by
    simp [hp, ha]
  constructor
  · intro hterm
    constructor
    · unfold stopTenant
      rw [hf]
      simp [hcond, hterm]
    · exact Reg.find_erase_self st tid
  · intro hterm hk hobs
    have hpoll : stopPollAlive (env.obs r.pid) = true :=
      stopPollAlive_of_all_true (env.obs r.pid) hobs
    constructor
    · unfold stopTenant
      rw [hf]
      cases hkill : env.sigRes r.pid Sig.kill with
      | err => exact absurd hkill hk
      | gone => simp [hcond, hterm, hpoll, hkill]
      | ok => simp [hcond, hterm, hpoll, hkill]
    · exact Reg.find_erase_self st tid

/-- World for the C7 counterexample: signalling pid 7 fails with a
non-lookup OS error (e.g. `PermissionError`). -/
def envC7x : Env :=
  { alive := fun n => n == 0 || n == 7
    connectOk := fun _ _ _ => false
    httpGet := fun _ _ => none
    sigRes := fun _ _ => SigRes.err
    afterGrace := fun _ => false
    obs := fun _ _ => false
    spawnPid := 9
    now := 0
    runResult := fun _ _ => RunOutcome.completed 0 "" ""
    alive0 := rfl
    connect0 := fun _ _ => rfl }

def recC7 : Record :=
  { pid := 7, port := 8100, username := "t",
    network_volume := "/workspace/t", started_at := 0, env := [] }

def stC7 : Reg := [("t", recC7)]

/-- C7 counterexample: SIGTERM is attempted (the kill event is in the
trace) but raises a non-lookup error; `stop_tenant` re-raises and the
record for the tenant is still in the registry afterwards — refuting
"stop never returns leaving a record behind after the SIGTERM was
attempted". -/
theorem C7_counterexample :
    stopTenant envC7x stC7 "t" =
      ([Event.killpg 7 Sig.term], stC7, Except.error ()) ∧
    Reg.find stC7 "t" = some recC7 :=
  ⟨rfl, rfl⟩

/-- World for the C7 witness, lookup-error case. -/
def envC7a : Env :=
  { alive := fun n => n == 0 || n == 6
    connectOk := fun _ _ _ => false
    httpGet := fun _ _ => none
    sigRes := fun _ _ => SigRes.gone
    afterGrace := fun _ => false
    obs := fun _ _ => false
    spawnPid := 9
    now := 0
    runResult := fun _ _ => RunOutcome.completed 0 "" ""
    alive0 := rfl
    connect0 := fun _ _ => rfl }

/-- World for the C7 witness, unconfirmed-kill case: the pid is
observed alive at every poll. -/
def envC7b : Env :=
  { alive := fun n => n == 0 || n == 6
    connectOk := fun _ _ _ => false
    httpGet := fun _ _ => none
    sigRes := fun _ _ => SigRes.ok
    afterGrace := fun _ => false
    obs := fun _ _ => true
    spawnPid := 9
    now := 0
    runResult := fun _ _ => RunOutcome.completed 0 "" ""
    alive0 := rfl
    connect0 := fun _ _ => rfl }

def recC7a : Record :=
  { pid := 6, port := 8100, username := "t",
    network_volume := "/workspace/t", started_at := 0, env := [] }

theorem C7_witness :
    stopTenant envC7a [("t", recC7a)] "t" =
      ([Event.killpg 6 Sig.term], [], Except.ok StopResult.stopped) ∧
    stopTenant envC7b [("t", recC7a)] "t" =
      ([Event.killpg 6 Sig.term, Event.killpg 6 Sig.kill], [],
        Except.ok StopResult.stopped) := by
  constructor
  · exact ((C7_stop_removal envC7a [("t", recC7a)] "t" recC7a rfl (by decide) rfl).1
      rfl).1
  · exact ((C7_stop_removal envC7b [("t", recC7a)] "t" recC7a rfl (by decide) rfl).2
      rfl (by decide) (fun i => rfl)).1

/-- C6 (amended): starting over a tenant whose record holds a nonzero
alive pid that fails its health probe — when signalling the old process
group does not fail with a non-lookup OS error — SIGTERMs the old group
(escalating to SIGKILL if it is still alive after the grace sleep),
removes the old record, and only then spawns the new process; exactly
one registry record for the tenant remains, the new one. -/
theorem C6_forced_cleanup (env : Env) (st : Reg) (tid u : String) (p : Nat)
    (ev : List (String × String)) (r : Record)
    (hf : Reg.find st tid = some r)
    (hp : r.pid ≠ 0)
    (ha : env.alive r.pid = true)
    (hh : isComfyuiHealthy env r.port = false)
    (ht : env.sigRes r.pid Sig.term ≠ SigRes.err)
    (hk : env.sigRes r.pid Sig.kill ≠ SigRes.err) :
    startTenant env st tid u p ev =
      (Event.killpg r.pid Sig.term ::
        ((if env.sigRes r.pid Sig.term = SigRes.gone then []
          else if env.afterGrace r.pid then [Event.killpg r.pid Sig.kill] else []) ++
          [Event.rmRec tid, Event.spawn env.spawnPid, Event.putRec tid]),
        Reg.set (Reg.erase st tid) tid (startRecord env u p ev tid),
        StartResult.started p env.spawnPid (networkVolumeOf ev tid)) ∧
    Reg.countKey (Reg.set (Reg.erase st tid) tid (startRecord env u p ev tid)) tid = 1 ∧
    Reg.find (Reg.set (Reg.erase st tid) tid (startRecord env u p ev tid)) tid =
      some (startRecord env u p ev tid) := by
  refine ⟨?_, Reg.countKey_set_erase st tid _, Reg.find_set_self _ tid _⟩
  have hcond : (env.alive r.pid && (r.port != 0) && isComfyuiHealthy env r.port) = false := by
    simp [hh]
  have hcl : ((r.pid != 0) && env.alive r.pid) = true := by
    simp [hp, ha]
  unfold startTenant forceCleanup
  rw [hf]
  cases hterm : env.sigRes r.pid Sig.term with
  | err => exact absurd hterm ht
  | gone => simp [hcond, hcl, hterm, hf]
  | ok =>
    cases hgr : env.afterGrace r.pid with
    | false => simp [hcond, hcl, hterm, hgr, hf]
    | true =>
      cases hkill : env.sigRes r.pid Sig.kill with
      | err => exact absurd hkill hk
      | gone => simp [hcond, hcl, hterm, hgr, hkill, hf]
      | ok => simp [hcond, hcl, hterm, hgr, hkill, hf]

/-- World for the C6 witness: pid 9 exists but no service answers, so
every probe fails; signalling succeeds; spawns hand back pid 11. -/
def envC6 : Env :=
  { alive := fun n => n == 0 || n == 9
    connectOk := fun _ _ _ => false
    httpGet := fun _ _ => none
    sigRes := fun _ _ => SigRes.ok
    afterGrace := fun _ => false
    obs := fun _ _ => false
    spawnPid := 11
    now := 4
    runResult := fun _ _ => RunOutcome.completed 0 "" ""
    alive0 := rfl
    connect0 := fun _ _ => rfl }

def recC6 : Record :=
  { pid := 9, port := 8000, username := "u",
    network_volume := "/workspace/t", started_at := 0, env := [] }

def stC6 : Reg := [("t", recC6)]

def recC6new : Record :=
  { pid := 11, port := 8001, username := "u2",
    network_volume := "/workspace/t", started_at := 4, env := [] }

theorem C6_witness :
    startTenant envC6 stC6 "t" "u2" 8001 [] =
      ([Event.killpg 9 Sig.term, Event.rmRec "t", Event.spawn 11, Event.putRec "t"],
        [("t", recC6new)], StartResult.started 8001 11 "/workspace/t") ∧
    Reg.countKey [("t", recC6new)] "t" = 1 := by
  constructor
  · exact (C6_forced_cleanup envC6 stC6 "t" "u2" 8001 [] recC6 rfl (by decide) rfl rfl
      (by decide) (by decide)).1
  · exact (C6_forced_cleanup envC6 stC6 "t" "u2" 8001 [] recC6 rfl (by decide) rfl rfl
      (by decide) (by decide)).2.1

/-- World for the C6 counterexample: like `envC6`, but signalling pid 9
fails with a non-lookup OS error. -/
def envC6x : Env :=
  { alive := fun n => n == 0 || n == 9
    connectOk := fun _ _ _ => false
    httpGet := fun _ _ => none
    sigRes := fun _ _ => SigRes.err
    afterGrace := fun _ => false
    obs := fun _ _ => false
    spawnPid := 11
    now := 4
    runResult := fun _ _ => RunOutcome.completed 0 "" ""
    alive0 := rfl
    connect0 := fun _ _ => rfl }

/-- C6 counterexample: the old pid is alive and unhealthy, SIGTERM is
attempted but fails with a non-lookup error; `_force_cleanup_tenant`
swallows the failure and returns without removing the record, and the
start still succeeds — so the old record was never removed before the
spawn (no record-removal event occurs at all), refuting the claim as
stated; the new record merely overwrites the old one. -/
theorem C6_counterexample :
    startTenant envC6x stC6 "t" "u2" 8001 [] =
      ([Event.killpg 9 Sig.term, Event.spawn 11, Event.putRec "t"],
        [("t", recC6new)], StartResult.started 8001 11 "/workspace/t") ∧
    Event.rmRec "t" ∉
      [Event.killpg 9 Sig.term, Event.spawn 11, Event.putRec "t"] :=
  ⟨rfl, by decide⟩

/-- C4 (amended): a record whose nonzero pid is absent from the host at
the time of a `get_tenant_info` call is pruned by that same call's
initial reconciliation sweep and is therefore not reported at all (with
any status); it is gone from the surviving registry, so it never
reappears; and records whose pid is alive are never removed by the
sweep. -/
theorem C4_reconcile (env : Env) (st : Reg) (tid : String) (r : Record)
    (hwf : Reg.wf st)
    (hmem : (tid, r) ∈ st)
    (_hp : r.pid ≠ 0)
    (hd : env.alive r.pid = false) :
    (∀ ti ∈ (getTenantInfo env st).2, ti.pod_id ≠ tid) ∧
    Reg.find (getTenantInfo env st).1 tid = none ∧
    (∀ (tid2 : String) (r2 : Record), (tid2, r2) ∈ st →
      env.alive r2.pid = true → (tid2, r2) ∈ (getTenantInfo env st).1) := by
  have key : ∀ q ∈ st.filter (fun p => env.alive p.2.pid), q.1 ≠ tid := by
    intro q hq hqt
    rw [List.mem_filter] at hq
    have hqa : env.alive q.2.pid = true := hq.2
    have hq1 : (tid, q.2) ∈ st := by
      rw [← hqt]
      exact hq.1
    have : q.2 = r := Reg.wf_eq_of_mem hwf hq1 hmem
    rw [this, hd] at hqa
    cases hqa
  refine ⟨?_, ?_, ?_⟩
  · intro ti hti
    rw [show (getTenantInfo env st).2 =
        (cleanupDead env st).map (fun p => classify env p.1 p.2) from rfl,
      cleanupDead_eq_filter] at hti
    rw [List.mem_map] at hti
    obtain ⟨q, hq, hcl⟩ := hti
    rw [← hcl]
    exact key q hq
  · rw [show (getTenantInfo env st).1 = cleanupDead env st from rfl,
      cleanupDead_eq_filter]
    unfold Reg.find
    rw [Option.map_eq_none', List.find?_eq_none]
    intro q hq
    simpa using key q hq
  · intro tid2 r2 hm ha2
    rw [show (getTenantInfo env st).1 = cleanupDead env st from rfl,
      cleanupDead_eq_filter, List.mem_filter]
    exact ⟨hm, ha2⟩

/-- World for the C4 counterexample: only pid 0 exists. -/
def envC4 : Env :=
  { alive := fun n => n == 0
    connectOk := fun _ _ _ => false
    httpGet := fun _ _ => none
    sigRes := fun _ _ => SigRes.ok
    afterGrace := fun _ => false
    obs := fun _ _ => false
    spawnPid := 2
    now := 0
    runResult := fun _ _ => RunOutcome.completed 0 "" ""
    alive0 := rfl
    connect0 := fun _ _ => rfl }

def recC4 : Record :=
  { pid := 5, port := 8200, username := "t",
    network_volume := "/workspace/t", started_at := 0, env := [] }

def stC4 : Reg := [("t", recC4)]

/-- C4 counterexample: a registry holds one record whose pid 5 is
absent from the host; `get_tenant_info` sweeps it before the
classification loop, so the listing reports it zero times — not "with
status dead exactly once" as claimed. -/
theorem C4_counterexample :
    Reg.find stC4 "t" = some recC4 ∧
    envC4.alive recC4.pid = false ∧
    getTenantInfo envC4 stC4 = ([], []) ∧
    List.countP (fun ti => ti.pod_id == "t") (getTenantInfo envC4 stC4).2 = 0 :=
  ⟨rfl, rfl, rfl, rfl⟩

/-- World for the C4 witness: pids 0 and 3 exist, 5 does not. -/
def envC4w : Env :=
  { alive := fun n => n == 0 || n == 3
    connectOk := fun _ _ _ => false
    httpGet := fun _ _ => none
    sigRes := fun _ _ => SigRes.ok
    afterGrace := fun _ => false
    obs := fun _ _ => false
    spawnPid := 2
    now := 0
    runResult := fun _ _ => RunOutcome.completed 0 "" ""
    alive0 := rfl
    connect0 := fun _ _ => rfl }

def recC4d : Record :=
  { pid := 5, port := 8200, username := "t",
    network_volume := "/workspace/t", started_at := 0, env := [] }

def recC4a : Record :=
  { pid := 3, port := 8300, username := "s",
    network_volume := "/workspace/s", started_at := 0, env := [] }

def stC4w : Reg := [("t", recC4d), ("s", recC4a)]

theorem C4_witness :
    Reg.find (getTenantInfo envC4w stC4w).1 "t" = none ∧
    ("s", recC4a) ∈ (getTenantInfo envC4w stC4w).1 := by
  have h := C4_reconcile envC4w stC4w "t" recC4d
    (by show (stC4w.map Prod.fst).Nodup; decide)
    (by decide) (by decide) rfl
  exact ⟨h.2.1, h.2.2 "s" recC4a (by decide) rfl⟩

/-- C9: a truthy command completing within the 300 s limit yields the
`{returncode, stdout, stderr, success}` body with `success` exactly
when the return code is zero (HTTP 200 on zero, 500 otherwise); a
command exceeding the limit yields the distinct 408 timeout error
response — not the normal result shape — and the in-flight child is
killed (the `subprocess.run` timeout contract), not orphaned. -/
theorem C9_execute (env : Env) (c : String) (hc : c ≠ "") :
    (∀ (rc : Int) (o e : String),
      env.runResult c 300 = RunOutcome.completed rc o e →
      handleExecuteRequest env (some c) =
        (ExecResp.okJson (if rc = 0 then 200 else 500)
          { returncode := rc, stdout := o, stderr := e, success := rc == 0 }, [])) ∧
    (env.runResult c 300 = RunOutcome.timedOut →
      handleExecuteRequest env (some c) =
        (ExecResp.httpErr 408 "Command timeout", [Event.childKilled])) := by
  constructor
  · intro rc o e h
    simp [handleExecuteRequest, hc, h]
  · intro h
    simp [handleExecuteRequest, hc, h]

/-- World for the C9 witness. -/
def envC9 : Env :=
  { alive := fun _ => true
    connectOk := fun _ _ _ => false
    httpGet := fun _ _ => none
    sigRes := fun _ _ => SigRes.ok
    afterGrace := fun _ => false
    obs := fun _ _ => false
    spawnPid := 2
    now := 0
    runResult := fun c _ =>
      if c == "sleep 999" then RunOutcome.timedOut
      else RunOutcome.completed 0 "ok" ""
    alive0 := rfl
    connect0 := fun _ _ => rfl }

theorem C9_witness :
    handleExecuteRequest envC9 (some "ls") =
      (ExecResp.okJson 200
        { returncode := 0, stdout := "ok", stderr := "", success := true }, []) ∧
    handleExecuteRequest envC9 (some "sleep 999") =
      (ExecResp.httpErr 408 "Command timeout", [Event.childKilled]) := by
  constructor
  · exact (C9_execute envC9 "ls" (by decide)).1 0 "ok" "" rfl
  · exact (C9_execute envC9 "sleep 999" (by decide)).2 rfl

/-- C10: a `/start` request whose required fields are present but falsy
— port 0, empty tenant id, or empty username — is rejected with the
same HTTP 400 client error produced when the field is missing, the
registry is untouched, and no event happens (the request never reaches
`start_tenant`). -/
theorem C10_falsy_fields (env : Env) (st : Reg) (req : StartReq)
    (h : req.POD_ID = some "" ∨ req.POD_USERNAME = some "" ∨ req.PORT = some 0) :
    handleStartRequest env st req =
      (StartResp.clientErr 400 "POD_ID, POD_USERNAME, and PORT required", st, []) ∧
    handleStartRequest env st req =
      handleStartRequest env st
        { POD_ID := none, POD_USERNAME := none, PORT := none,
          envVars := req.envVars } := by
  have herr : handleStartRequest env st req =
      (StartResp.clientErr 400 "POD_ID, POD_USERNAME, and PORT required", st, []) := by
    obtain ⟨i, un, pt, ev⟩ := req
    cases i with
    | none => rfl
    | some tid =>
      cases un with
      | none => rfl
      | some uu =>
        cases pt with
        | none => rfl
        | some pp =>
          rcases h with h | h | h
          · have htid : tid = "" := Option.some.inj h
            unfold handleStartRequest
            simp [htid]
          · have huu : uu = "" := Option.some.inj h
            unfold handleStartRequest
            simp [huu]
          · have hpp : pp = 0 := Option.some.inj h
            unfold handleStartRequest
            simp [hpp]
  refine ⟨herr, herr.trans ?_⟩
  rfl

def reqC10 : StartReq :=
  { POD_ID := some "tenantX", POD_USERNAME := some "alice",
    PORT := some 0, envVars := [] }

theorem C10_witness :
    handleStartRequest envC2 [] reqC10 =
      (StartResp.clientErr 400 "POD_ID, POD_USERNAME, and PORT required", [], []) ∧
    handleStartRequest envC2 [] reqC10 =
      handleStartRequest envC2 []
        { POD_ID := none, POD_USERNAME := none, PORT := none, envVars := [] } := by
  have h := C10_falsy_fields envC2 [] reqC10 (Or.inr (Or.inr rfl))
  exact ⟨h.1, h.2⟩

end TenantManager
